import Mathlib

/-
  Verification of the fish.audio auto-login bot (src/main.py) against its
  natural-language specification.  The Python source is shallowly embedded:
  pure decision logic becomes Lean functions over driver-observable page
  state, the control loop becomes a fold over per-cycle environment
  behaviours, and the status queue / log buffer become list operations.
-/

namespace FishAudio

/-- Tests whether the first list is an initial segment of the second
(character-by-character comparison, as Python substring search does at one
alignment). -/
def leadsWith : List Char → List Char → Bool
  | [], _ => true
  | _ :: _, [] => false
  | a :: as, b :: bs => a == b && leadsWith as bs

/-- Substring containment on character lists: `containsSub hay needle` is
true iff `needle` occurs contiguously inside `hay` — the semantics of
Python's `needle in hay` on strings. -/
def containsSub : List Char → List Char → Bool
  | [], needle => leadsWith needle []
  | c :: t, needle => leadsWith needle (c :: t) || containsSub t needle

/-- Python's `needle in hay` for strings. -/
def strContains (hay needle : String) : Bool :=
  containsSub hay.toList needle.toList

/-- The login endpoint, src/main.py line 56. -/
def LOGIN_URL : String := "https://fish.audio/auth/"

/-- Driver-observable state consulted by `is_logged_in` (lines 241-271):
the current URL, whether each of the four logged-out indicator locators
resolves, and whether some driver call raises an error other than
NoSuchElementException (caught by the except branch at line 269). -/
structure PageState where
  currentUrl : String
  hasEmailInput : Bool
  hasPasswordInput : Bool
  hasSignInButton : Bool
  hasLoginButton : Bool
  raisesOnAccess : Bool
deriving Repr, DecidableEq

/-- The fixed ordered list of logged-out indicator locators of lines
251-256, each entry recording whether that locator resolves on the page. -/
def loginIndicators (p : PageState) : List Bool :=
  [p.hasEmailInput, p.hasPasswordInput, p.hasSignInButton, p.hasLoginButton]

/-- Embedding of `FishAudioLoginBot.is_logged_in` (lines 241-271): any
driver error yields False (lines 269-271); else if the URL contains
"auth" or "login" the user is taken to be on the login page (lines
244-248); else if some indicator locator resolves the user is logged out
(lines 258-264); else the user is logged in (line 267). -/
def is_logged_in (p : PageState) : Bool :=
  if p.raisesOnAccess then false
  else if strContains p.currentUrl "auth" || strContains p.currentUrl "login" then false
  else if (loginIndicators p).any (fun b => b) then false
  else true

/-- Session classification outcome, from the specification's data model. -/
inductive SessionState where
  | LoggedIn
  | LoggedOut
  | Unknown
deriving Repr, DecidableEq

/-- Modelled from the spec's words (section 4.2) for comparison with
`is_logged_in`: rules applied in order, first match wins — (a) URL matches
the login-endpoint pattern, (b) first resolving indicator in the fixed
ordered list, (c) otherwise LoggedIn; any driver-level error is LoggedOut. -/
def classifySpec (p : PageState) : SessionState :=
  if p.raisesOnAccess then SessionState.LoggedOut
  else if strContains p.currentUrl "auth" || strContains p.currentUrl "login" then
    SessionState.LoggedOut
  else
    match (loginIndicators p).find? (fun b => b) with
    | some _ => SessionState.LoggedOut
    | none => SessionState.LoggedIn

/-- How one authentication attempt inside `login` (lines 273-333) unfolds:
either some step before the submit raises or times out (each such path
returns False at lines 292-314 or 331-333), or the submit is reached and
`post` is the page state after the eight-second settle delay. -/
inductive LoginStep where
  | navRaises
  | emailTimeout
  | passwordTimeout
  | buttonTimeout
  | submitted (post : PageState)
deriving Repr, DecidableEq

/-- The post-submit success decision of `login`, lines 320-329: True when
the current URL no longer contains LOGIN_URL; else True when
`is_logged_in` is False; else False. -/
def loginDecision (p : PageState) : Bool :=
  if !(strContains p.currentUrl LOGIN_URL) then true
  else if !(is_logged_in p) then true
  else false

/-- Result of one whole `login` call: every pre-submit failure path
returns False, and a completed submit is decided by `loginDecision`. -/
def loginResult : LoginStep → Bool
  | LoginStep.submitted post => loginDecision post
  | _ => false

/-- Environment behaviour of one iteration of the while loop (lines
351-428): either the cycle body raises (handled by the except clause at
line 417), or the page observed by the logged-in check is `check` and, if
a login is attempted, it unfolds as `login`. -/
inductive CycleEnv where
  | raises
  | page (check : PageState) (login : LoginStep)
deriving Repr, DecidableEq

/-- The four per-cycle outcomes distinguished by the loop body. -/
inductive Outcome where
  | alreadyIn
  | loginOk
  | loginFail
  | cycleError
deriving Repr, DecidableEq

/-- Which outcome a cycle reaches (lines 362-400 and 417-428). -/
def cycleOutcome : CycleEnv → Outcome
  | CycleEnv.raises => Outcome.cycleError
  | CycleEnv.page check l =>
    if is_logged_in check then Outcome.alreadyIn
    else if loginResult l then Outcome.loginOk
    else Outcome.loginFail

/-- The statistics dictionary of lines 96-104, restricted to its counter
and status fields; the two wall-clock timestamp fields are outside the
embedding. -/
structure Stats where
  total_checks : Nat
  successful_logins : Nat
  already_logged_in : Nat
  login_failures : Nat
  current_status : String
deriving Repr, DecidableEq

/-- The literal keys of the statistics dictionary created at lines 96-104;
no other code adds a key to it. -/
def statsKeys : List String :=
  ["total_checks", "successful_logins", "already_logged_in",
   "login_failures", "start_time", "last_check_time", "current_status"]

/-- Initial statistics (lines 96-104). -/
def initStats : Stats :=
  { total_checks := 0, successful_logins := 0, already_logged_in := 0,
    login_failures := 0, current_status := "Stopped" }

/-- Statistics update of one cycle: `total_checks` is incremented at the
top (line 353), then exactly one outcome counter and the status string are
updated (lines 368-371, 379-382, 391-394, 418-421). -/
def applyCycle (st : Stats) (env : CycleEnv) : Stats :=
  let st1 := { st with total_checks := st.total_checks + 1 }
  match cycleOutcome env with
  | Outcome.loginOk =>
    { st1 with successful_logins := st1.successful_logins + 1,
               current_status := "Logged in" }
  | Outcome.loginFail =>
    { st1 with login_failures := st1.login_failures + 1,
               current_status := "Login failed" }
  | Outcome.alreadyIn =>
    { st1 with already_logged_in := st1.already_logged_in + 1,
               current_status := "Already logged in" }
  | Outcome.cycleError =>
    { st1 with login_failures := st1.login_failures + 1,
               current_status := "Error occurred" }

/-- One entry placed on `status_queue`.  `statsIsCopy` records whether the
publishing site passes `self.stats.copy()` (every site except line 342,
which passes `self.stats` itself); `stats` is the statistics value at
publish time.  Emoji prefixes of the source messages are omitted. -/
structure StatusEvent where
  status : String
  message : String
  stats : Stats
  statsIsCopy : Bool
  countdown : Option Nat
deriving Repr, DecidableEq

/-- The outcome event a cycle publishes (lines 373-377, 384-388, 396-400,
423-427); `st` is the statistics value after `applyCycle`, since every
counter update precedes the publish. -/
def outcomeEvent (st : Stats) (env : CycleEnv) : StatusEvent :=
  match cycleOutcome env with
  | Outcome.loginOk =>
    { status := "success",
      message := "Login successful! (Total logins: " ++ toString st.successful_logins ++ ")",
      stats := st, statsIsCopy := true, countdown := none }
  | Outcome.loginFail =>
    { status := "error",
      message := "Login failed! (Total failures: " ++ toString st.login_failures ++ ")",
      stats := st, statsIsCopy := true, countdown := none }
  | Outcome.alreadyIn =>
    { status := "success",
      message := "Already logged in (Total: " ++ toString st.already_logged_in ++ ")",
      stats := st, statsIsCopy := true, countdown := none }
  | Outcome.cycleError =>
    { status := "error", message := "Error in main loop",
      stats := st, statsIsCopy := true, countdown := none }

/-- Progress events of the countdown wait (lines 402-415): one per second,
carrying the remaining seconds and a statistics copy. -/
def progressEvents (interval : Nat) (st : Stats) : List StatusEvent :=
  (List.range interval).map (fun i =>
    { status := "progress",
      message := "Next check in " ++ toString (interval - i) ++ "s",
      stats := st, statsIsCopy := true, countdown := some (interval - i) })

/-- Events published by one full cycle: the outcome event, then — except
on the error path, whose backoff at line 428 publishes nothing — the
countdown progress events. -/
def cycleEvents (interval : Nat) (stPrev : Stats) (env : CycleEnv) : List StatusEvent :=
  let st := applyCycle stPrev env
  match cycleOutcome env with
  | Outcome.cycleError => [outcomeEvent st env]
  | _ => outcomeEvent st env :: progressEvents interval st

/-- State of one `run` invocation: the cooperative `running` flag, the
statistics, the events placed on `status_queue` in order, and how many
times `driver.quit()` has been called. -/
structure LoopState where
  running : Bool
  stats : Stats
  events : List StatusEvent
  quitCalls : Nat
deriving Repr, DecidableEq

/-- One iteration of the while loop applied to the loop state. -/
def stepCycle (interval : Nat) (ls : LoopState) (env : CycleEnv) : LoopState :=
  { ls with stats := applyCycle ls.stats env,
            events := ls.events ++ cycleEvents interval ls.stats env }

/-- Statistics after a given sequence of completed cycles, starting from
the post-setup state (line 348 sets the status to Running). -/
def statsAfterCycles (envs : List CycleEnv) : Stats :=
  envs.foldl applyCycle { initStats with current_status := "Running" }

/-- Embedding of `FishAudioLoginBot.run` (lines 335-439).  When setup
fails (lines 337-344) the function publishes one error event whose stats
field is the live `self.stats` (no `.copy()` at line 342) and returns
without ever setting `running`, entering the loop, or touching the driver.
When setup succeeds, the loop processes the given cycle environments —
the except clause at line 417 catches every per-cycle exception, so only
`running` turning false exits the loop — then an external `stop()` (lines
441-444) clears the flag, and the finally block (lines 430-439) calls
`driver.quit()` once, sets the status to Stopped and publishes a final
info event with a statistics copy. -/
def runModel (interval : Nat) (setupOk : Bool) (envs : List CycleEnv) : LoopState :=
  if setupOk then
    let st0 : LoopState :=
      { running := true, stats := { initStats with current_status := "Running" },
        events := [], quitCalls := 0 }
    let st1 := envs.foldl (stepCycle interval) st0
    let stopped := { st1.stats with current_status := "Stopping..." }
    let finalStats := { stopped with current_status := "Stopped" }
    { running := false, stats := finalStats,
      events := st1.events ++
        [{ status := "info", message := "Bot stopped", stats := finalStats,
           statsIsCopy := true, countdown := none }],
      quitCalls := st1.quitCalls + 1 }
  else
    { running := false, stats := initStats,
      events := [{ status := "error", message := "Failed to setup driver",
                   stats := initStats, statsIsCopy := false, countdown := none }],
      quitCalls := 0 }

/-- Unbounded FIFO put of `queue.Queue()` (line 93): always appends, never
blocks, never evicts. -/
def statusPut (q : List StatusEvent) (e : StatusEvent) : List StatusEvent :=
  q ++ [e]

/-- n consecutive puts of the same event onto an initially empty queue. -/
def statusPutN (e : StatusEvent) : Nat → List StatusEvent
  | 0 => []
  | n + 1 => statusPut (statusPutN e n) e

/-- One record of the Streamlit log buffer (lines 66-70). -/
structure LogEntry where
  time : String
  level : String
  message : String
deriving Repr, DecidableEq

/-- `StreamlitLogHandler.emit` (lines 65-74): append the entry, then pop
the oldest entry if the buffer now exceeds 50. -/
def emitLog (logs : List LogEntry) (e : LogEntry) : List LogEntry :=
  let ls := logs ++ [e]
  if 50 < ls.length then ls.drop 1 else ls

/-- One sleep performed by the worker: `polled` records whether the
`running` flag is checked immediately before the sleep. -/
structure SleepStep where
  polled : Bool
  secs : Nat
deriving Repr, DecidableEq

/-- Seconds slept from the head of the list until the flag is next polled
(by a later polled step, or by the while condition after the list). -/
def sleepUntilPoll : List SleepStep → Nat
  | [] => 0
  | s :: rest => if s.polled then 0 else s.secs + sleepUntilPoll rest

/-- Worst case over stop-request arrival points: a request arriving just
as a step's sleep begins is observed only after that whole sleep plus
every following unpolled sleep. -/
def worstLatency : List SleepStep → Nat
  | [] => 0
  | s :: rest => max (s.secs + sleepUntilPoll rest) (worstLatency rest)

/-- The sleeps performed by one cycle's wait phase.  The countdown (lines
402-415) polls `running` before each one-second sleep; the exception
handler (line 428) performs a single sleep of the full interval with no
poll. -/
def sleepStepsOfCycle (interval : Nat) (env : CycleEnv) : List SleepStep :=
  match cycleOutcome env with
  | Outcome.cycleError => [{ polled := false, secs := interval }]
  | _ => List.replicate interval { polled := true, secs := 1 }

/-- Page state exercising the post-submit decision: still on the login
endpoint with the login form visible. -/
def stuckLoginPage : PageState :=
  { currentUrl := "https://fish.audio/auth/", hasEmailInput := true,
    hasPasswordInput := true, hasSignInButton := true, hasLoginButton := false,
    raisesOnAccess := false }

/-- A fixed event used to exercise the status queue. -/
def dummyEvent : StatusEvent :=
  { status := "progress", message := "Next check in 1s", stats := initStats,
    statsIsCopy := true, countdown := some 1 }

/-- A fixed entry used to exercise the log buffer. -/
def dummyLog : LogEntry :=
  { time := "2024-01-01 00:00:00", level := "INFO", message := "check" }

/-- A page whose URL merely mentions "auth" in a path segment, with no
login-form indicator present and no driver error. -/
def authorProfilePage : PageState :=
  { currentUrl := "https://fish.audio/author-profile", hasEmailInput := false,
    hasPasswordInput := false, hasSignInButton := false, hasLoginButton := false,
    raisesOnAccess := false }

/-- An event whose statistics snapshot was taken by copy after the cycle's
counters were updated: the copy flag is set and the snapshot's counters
partition its cycle total. -/
def goodEvent (e : StatusEvent) : Bool :=
  e.statsIsCopy &&
    (e.stats.successful_logins + e.stats.already_logged_in + e.stats.login_failures
      == e.stats.total_checks)

/-- A list that is an initial segment of an initial segment is an initial
segment. -/
theorem leadsWith_trans : ∀ {a b c : List Char}, leadsWith a b = true →
    leadsWith b c = true → leadsWith a c = true
  | [], _, _, _, _ => rfl
  | _ :: _, [], _, h1, _ => by simp [leadsWith] at h1
  | _ :: _, _ :: _, [], _, h2 => by simp [leadsWith] at h2
  | x :: xs, y :: ys, z :: zs, h1, h2 => by
    simp [leadsWith] at h1 h2 ⊢
    exact ⟨h1.1.trans h2.1, leadsWith_trans h1.2 h2.2⟩

/-- Only the empty list is an initial segment of the empty list. -/
theorem leadsWith_nil : ∀ {n : List Char}, leadsWith n [] = true → n = []
  | [], _ => rfl
  | _ :: _, h => by simp [leadsWith] at h

/-- The empty list occurs in every list. -/
theorem containsSub_nil : ∀ (hay : List Char), containsSub hay [] = true
  | [] => rfl
  | _ :: _ => by simp [containsSub, leadsWith]

/-- An initial segment in particular occurs as a substring. -/
theorem leadsWith_imp_containsSub : ∀ {n hay : List Char},
    leadsWith n hay = true → containsSub hay n = true
  | n, [], hl => by
    have := leadsWith_nil hl
    subst this; rfl
  | _, _ :: _, hl => by simp [containsSub, hl]

/-- Occurrence inside an initial segment gives occurrence in the whole. -/
theorem leadsWith_containsSub : ∀ {m hay n : List Char}, leadsWith m hay = true →
    containsSub m n = true → containsSub hay n = true
  | [], hay, n, _, hc => by
    have : n = [] := leadsWith_nil (by simpa [containsSub] using hc)
    subst this; exact containsSub_nil hay
  | a :: as, hay, n, hl, hc => by
    cases hay with
    | nil => simp [leadsWith] at hl
    | cons b bs =>
      simp [leadsWith] at hl
      simp [containsSub] at hc
      rcases hc with hc | hc
      · exact leadsWith_imp_containsSub (leadsWith_trans hc (by simp [leadsWith, hl.1, hl.2]))
      · have := leadsWith_containsSub hl.2 hc
        simp [containsSub, this]

/-- Substring containment is transitive. -/
theorem containsSub_trans : ∀ {hay m n : List Char}, containsSub hay m = true →
    containsSub m n = true → containsSub hay n = true
  | [], m, n, h1, h2 => by
    have : m = [] := leadsWith_nil (by simpa [containsSub] using h1)
    subst this; exact h2
  | c :: t, m, n, h1, h2 => by
    simp [containsSub] at h1
    rcases h1 with h1 | h1
    · exact leadsWith_containsSub h1 h2
    · have := containsSub_trans h1 h2
      simp [containsSub, this]

/-- Substring containment on strings is transitive. -/
theorem strContains_trans {a b c : String} (h1 : strContains a b = true)
    (h2 : strContains b c = true) : strContains a c = true :=
  containsSub_trans h1 h2

/-- Every cycle increments `total_checks` by exactly one. -/
theorem applyCycle_total (st : Stats) (env : CycleEnv) :
    (applyCycle st env).total_checks = st.total_checks + 1 := by
  cases h : cycleOutcome env <;> simp [applyCycle, h]

/-- One cycle preserves the outcome-counter partition invariant. -/
theorem applyCycle_sum (st : Stats) (env : CycleEnv)
    (h : st.successful_logins + st.already_logged_in + st.login_failures =
      st.total_checks) :
    (applyCycle st env).successful_logins + (applyCycle st env).already_logged_in +
      (applyCycle st env).login_failures = (applyCycle st env).total_checks := by
  cases hc : cycleOutcome env <;> simp [applyCycle, hc] <;> omega

/-- The partition invariant is preserved by any sequence of cycles. -/
theorem foldl_applyCycle_sum : ∀ (envs : List CycleEnv) (st : Stats),
    st.successful_logins + st.already_logged_in + st.login_failures = st.total_checks →
    (envs.foldl applyCycle st).successful_logins +
      (envs.foldl applyCycle st).already_logged_in +
      (envs.foldl applyCycle st).login_failures =
      (envs.foldl applyCycle st).total_checks
  | [], _, h => h
  | e :: t, st, h => foldl_applyCycle_sum t (applyCycle st e) (applyCycle_sum st e h)

/-- `total_checks` counts exactly the completed cycles. -/
theorem foldl_applyCycle_total : ∀ (envs : List CycleEnv) (st : Stats),
    (envs.foldl applyCycle st).total_checks = st.total_checks + envs.length
  | [], _ => by simp
  | e :: t, st => by
    rw [List.foldl_cons, foldl_applyCycle_total t, applyCycle_total]
    simp [List.length_cons]
    omega

/-- The statistics component of the loop fold is the statistics fold. -/
theorem foldl_stepCycle_stats (interval : Nat) : ∀ (envs : List CycleEnv) (ls : LoopState),
    (envs.foldl (stepCycle interval) ls).stats = envs.foldl applyCycle ls.stats
  | [], _ => rfl
  | e :: t, ls => by
    rw [List.foldl_cons, List.foldl_cons, foldl_stepCycle_stats interval t]
    rfl

/-- Cycles never touch the quit counter. -/
theorem foldl_stepCycle_quit (interval : Nat) : ∀ (envs : List CycleEnv) (ls : LoopState),
    (envs.foldl (stepCycle interval) ls).quitCalls = ls.quitCalls
  | [], _ => rfl
  | e :: t, ls => by
    rw [List.foldl_cons, foldl_stepCycle_quit interval t]
    rfl

/-- Every event one cycle publishes is a consistent post-update copy. -/
theorem cycleEvents_all_good (interval : Nat) (st : Stats) (env : CycleEnv)
    (h : st.successful_logins + st.already_logged_in + st.login_failures =
      st.total_checks) :
    (cycleEvents interval st env).all goodEvent = true := by
  have h' := applyCycle_sum st env h
  cases hc : cycleOutcome env <;>
    simp_all [cycleEvents, outcomeEvent, progressEvents, goodEvent, hc,
      List.all_eq_true, List.mem_map, List.mem_range]

/-- The loop fold preserves all-events-good. -/
theorem foldl_stepCycle_good (interval : Nat) : ∀ (envs : List CycleEnv) (ls : LoopState),
    ls.events.all goodEvent = true →
    ls.stats.successful_logins + ls.stats.already_logged_in + ls.stats.login_failures =
      ls.stats.total_checks →
    (envs.foldl (stepCycle interval) ls).events.all goodEvent = true
  | [], _, he, _ => he
  | e :: t, ls, he, hs => by
    rw [List.foldl_cons]
    apply foldl_stepCycle_good interval t
    · simp [stepCycle, List.all_append, he, cycleEvents_all_good interval ls.stats e hs]
    · exact applyCycle_sum ls.stats e hs

/-- The countdown's poll-before-every-sleep steps never accumulate sleep
past the first poll. -/
theorem sleepUntilPoll_replicate : ∀ n : Nat,
    sleepUntilPoll (List.replicate n { polled := true, secs := 1 }) = 0
  | 0 => rfl
  | n + 1 => by simp [List.replicate, sleepUntilPoll]

/-- Worst-case latency of the polled one-second countdown steps. -/
theorem worstLatency_replicate_one : ∀ n : Nat,
    worstLatency (List.replicate n { polled := true, secs := 1 }) = min n 1
  | 0 => rfl
  | n + 1 => by
    simp [List.replicate, worstLatency, sleepUntilPoll_replicate,
      worstLatency_replicate_one n]

/-- Final statistics of a successful run: the cycle-fold statistics with
the status string set by the finally block. -/
theorem runModel_true_stats (interval : Nat) (envs : List CycleEnv) :
    (runModel interval true envs).stats =
      { statsAfterCycles envs with current_status := "Stopped" } := by
  simp [runModel, statsAfterCycles, foldl_stepCycle_stats]

/-- C1: in every run, after each completed cycle the three outcome
counters partition the cycle count: successful_logins + already_logged_in
+ login_failures = total_checks, and total_checks counts the cycles; the
final statistics of the run satisfy the same equation. -/
theorem C1_outcome_counters_partition_cycles (interval : Nat)
    (envs : List CycleEnv) (k : Nat) :
    (statsAfterCycles (envs.take k)).successful_logins +
      (statsAfterCycles (envs.take k)).already_logged_in +
      (statsAfterCycles (envs.take k)).login_failures =
      (statsAfterCycles (envs.take k)).total_checks ∧
    (statsAfterCycles (envs.take k)).total_checks = (envs.take k).length ∧
    (runModel interval true envs).stats.successful_logins +
      (runModel interval true envs).stats.already_logged_in +
      (runModel interval true envs).stats.login_failures =
      (runModel interval true envs).stats.total_checks := by
  refine ⟨?_, ?_, ?_⟩
  · exact foldl_applyCycle_sum (envs.take k) _ (by simp [initStats])
  · have := foldl_applyCycle_total (envs.take k)
      { initStats with current_status := "Running" }
    simpa [statsAfterCycles, initStats] using this
  · rw [runModel_true_stats]
    exact foldl_applyCycle_sum envs _ (by simp [initStats])

/-- C2: the classifier applies its rules in fixed order with the first
match winning — driver error, then the URL pattern, then the ordered
indicator list, else logged in — so `is_logged_in` agrees exactly with
the specification's rule list `classifySpec`. -/
theorem C2_classifier_rules_first_match_wins (p : PageState) :
    (is_logged_in p = true ↔ classifySpec p = SessionState.LoggedIn) ∧
    (is_logged_in p = false ↔ classifySpec p = SessionState.LoggedOut) := by
  rcases p with ⟨url, e1, e2, e3, e4, err⟩
  cases err <;> cases e1 <;> cases e2 <;> cases e3 <;> cases e4 <;>
    cases h : (strContains url "auth" || strContains url "login") <;>
      simp [is_logged_in, classifySpec, loginIndicators, h, List.find?]

/-- C3: at the failing input — still on the login endpoint after the
settle delay with the login form visible, a state the classifier itself
calls logged-out — the post-submit decision reports success; indeed the
decision returns true on every page state, so the failure branch at line
328 is unreachable. -/
theorem C3_login_decision_at_failing_input :
    (is_logged_in stuckLoginPage = false ∧ loginDecision stuckLoginPage = true) ∧
    ∀ p : PageState, loginDecision p = true := by
  refine ⟨⟨by decide, by decide⟩, ?_⟩
  intro p
  rcases p with ⟨url, e1, e2, e3, e4, err⟩
  by_cases hc : strContains url LOGIN_URL = true
  · have hauth : strContains url "auth" = true :=
      strContains_trans hc (by decide)
    cases err <;> simp [loginDecision, is_logged_in, hc, hauth]
  · have hc' : strContains url LOGIN_URL = false := by
      simpa using hc
    simp [loginDecision, hc']

/-- C4 counterexample: a stop requested as the post-exception backoff
sleep begins is observed only five seconds later when the interval is
five — the claimed one-second bound fails. -/
theorem C4_error_backoff_latency_exceeds_one_second :
    worstLatency (sleepStepsOfCycle 5 CycleEnv.raises) = 5 ∧
    ¬ (worstLatency (sleepStepsOfCycle 5 CycleEnv.raises) ≤ 1) := by decide

/-- C4 amended: during the countdown the flag is polled before every
one-second sleep, so stop latency is at most one second there; but the
post-exception backoff is a single unpolled sleep of the whole interval,
so its worst-case stop latency is the full reload interval. -/
theorem C4_stop_latency_by_phase (interval : Nat) (env : CycleEnv) :
    worstLatency (sleepStepsOfCycle interval env) =
      (match cycleOutcome env with
       | Outcome.cycleError => interval
       | _ => min interval 1) := by
  cases h : cycleOutcome env <;>
    simp [sleepStepsOfCycle, h, worstLatency, sleepUntilPoll,
      worstLatency_replicate_one]

/-- C5: whenever driver setup succeeds, `driver.quit()` is called exactly
once over the loop's lifetime — for every sequence of cycle behaviours,
including one where every cycle raises — and no cycle's exception
terminates the loop: all submitted cycles complete. -/
theorem C5_driver_quit_exactly_once (interval : Nat) (envs : List CycleEnv) :
    (runModel interval true envs).quitCalls = 1 ∧
    (runModel interval true envs).stats.total_checks = envs.length := by
  constructor
  · simp [runModel, foldl_stepCycle_quit]
  · rw [runModel_true_stats]
    have := foldl_applyCycle_total envs { initStats with current_status := "Running" }
    simpa [statsAfterCycles, initStats] using this

/-- C6 counterexample: the statistics dictionary created at lines 96-104
— the only statistics object the program has — contains no key mentioning
consecutive successes, so no such counter is maintained. -/
theorem C6_no_consecutive_successes_key :
    (statsKeys.any (fun k => strContains k "consecutive")) = false := by decide

/-- C6 amended: the statistics consist exactly of the four counters, the
two timestamps and the status string; no consecutiveSuccesses or
maxConsecutiveSuccesses counter exists, so no consecutive-success
behaviour is present to track. -/
theorem C6_statistics_keys :
    statsKeys = ["total_checks", "successful_logins", "already_logged_in",
      "login_failures", "start_time", "last_check_time", "current_status"] ∧
    statsKeys.all (fun k => !(strContains k "consecutive")) = true :=
  ⟨rfl, by decide⟩

/-- The queue length equals the number of puts: nothing is ever evicted. -/
theorem statusPutN_length (e : StatusEvent) : ∀ n : Nat,
    (statusPutN e n).length = n
  | 0 => rfl
  | n + 1 => by simp [statusPutN, statusPut, statusPutN_length e n]

/-- C7 counterexample: after 200 publishes the status queue holds all 200
entries — far past the claimed 50-100 retention cap — because
queue.Queue() is unbounded and never evicts. -/
theorem C7_status_queue_retains_past_cap :
    (statusPutN dummyEvent 200).length = 200 ∧
    ¬ ((statusPutN dummyEvent 200).length ≤ 100) := by
  refine ⟨statusPutN_length dummyEvent 200, ?_⟩
  rw [statusPutN_length]
  omega

/-- C7 amended: publishing is non-blocking and lossless — each put grows
the unbounded status queue by exactly one — while the 50-entry
oldest-evicted retention cap belongs to the Streamlit log buffer, whose
emit drops its oldest entry once the buffer exceeds 50. -/
theorem C7_publish_nonblocking_log_capped (q : List StatusEvent)
    (e : StatusEvent) (logs : List LogEntry) (x : LogEntry)
    (h : logs.length = 50) :
    (statusPut q e).length = q.length + 1 ∧
    (emitLog logs x).length = 50 ∧
    emitLog logs x = logs.drop 1 ++ [x] := by
  have hgt : 50 < (logs ++ [x]).length := by simp [h]
  have hdrop : emitLog logs x = (logs ++ [x]).drop 1 := by
    simp only [emitLog]
    rw [if_pos hgt]
  cases logs with
  | nil => simp at h
  | cons a t =>
    refine ⟨by simp [statusPut], ?_, ?_⟩
    · rw [hdrop]
      simp at h ⊢
      omega
    · rw [hdrop]
      simp

theorem C7_publish_nonblocking_log_capped_witness :
    (List.replicate 50 dummyLog).length = 50 ∧
    ((statusPut [] dummyEvent).length = ([] : List StatusEvent).length + 1 ∧
     (emitLog (List.replicate 50 dummyLog) dummyLog).length = 50 ∧
     emitLog (List.replicate 50 dummyLog) dummyLog =
       (List.replicate 50 dummyLog).drop 1 ++ [dummyLog]) :=
  ⟨by simp, C7_publish_nonblocking_log_capped [] dummyEvent
    (List.replicate 50 dummyLog) dummyLog (by simp)⟩

/-- C8: when no driver acquisition strategy succeeds, the loop never
starts: exactly one error event is published carrying the setup-failure
message, the statistics stay at their initial all-zero values, `running`
is never set, and the driver is never released because it was never
acquired. -/
theorem C8_setup_failure_never_starts_loop (interval : Nat)
    (envs : List CycleEnv) :
    (runModel interval false envs).events =
      [{ status := "error", message := "Failed to setup driver",
         stats := initStats, statsIsCopy := false, countdown := none }] ∧
    (runModel interval false envs).stats = initStats ∧
    initStats.total_checks = 0 ∧
    (runModel interval false envs).running = false ∧
    (runModel interval false envs).quitCalls = 0 :=
  ⟨rfl, rfl, rfl, rfl, rfl⟩

/-- C9 counterexample: the setup-failure event (line 342) passes
`self.stats` itself, not `self.stats.copy()`, so not every published
event carries a snapshot copy. -/
theorem C9_setup_event_carries_live_stats :
    ((runModel 1 false []).events.all (fun e => e.statsIsCopy)) = false := by decide

/-- C9 amended: every event published once driver setup has succeeded
carries a statistics copy taken after that cycle's counters were updated:
the copy flag holds and each snapshot's outcome counters already
partition its cycle total, so no event shows counts stale with respect to
the outcome it reports. -/
theorem C9_post_setup_events_are_fresh_copies (interval : Nat)
    (envs : List CycleEnv) :
    (runModel interval true envs).events.all goodEvent = true := by
  have h1 : (envs.foldl (stepCycle interval)
      { running := true, stats := { initStats with current_status := "Running" },
        events := [], quitCalls := 0 }).events.all goodEvent = true :=
    foldl_stepCycle_good interval envs _ rfl (by simp [initStats])
  have h2 := foldl_applyCycle_sum envs
    { initStats with current_status := "Running" } (by simp [initStats])
  simp [runModel, List.all_append, h1, goodEvent, foldl_stepCycle_stats]
  exact h2

/-- C10: any page whose URL contains "auth" or "login" anywhere as a
substring is classified logged-out, whatever the login-form indicators
say — the URL rule matches far more than the login endpoint itself. -/
theorem C10_url_substring_implies_logged_out (p : PageState)
    (h : (strContains p.currentUrl "auth" || strContains p.currentUrl "login") = true) :
    is_logged_in p = false := by
  rcases p with ⟨url, e1, e2, e3, e4, err⟩
  cases err <;> simp only [is_logged_in, h] <;> simp

theorem C10_url_substring_implies_logged_out_witness :
    (strContains authorProfilePage.currentUrl "auth" ||
      strContains authorProfilePage.currentUrl "login") = true ∧
    is_logged_in authorProfilePage = false :=
  ⟨by decide, C10_url_substring_implies_logged_out authorProfilePage (by decide)⟩

end FishAudio
